import Mathlib

/-!
# Verification of the site-financials business logic

Shallow embedding of the financial code of the repository:

* `calculateSiteFinancials` and `DEBIT_ADVANCE_PURPOSES`
  (src/src/lib/middleware/checkRole.ts, Expenses page component);
* `checkRole` middleware (src/src/lib/middleware/checkRole.ts);
* `mapInvoices` (src/src/pages/Invoices.tsx);
* the `increment_funds` serverless handler
  (src/supabase/functions/increment_funds/index.ts).

Monetary amounts are JavaScript numbers carrying decimal quantities; the
spec stipulates exact arithmetic ("no rounding is applied beyond the
numeric precision of the input decimals"), so amounts are embedded as `ℚ`.
JavaScript string falsiness (`!x` true for `undefined`/`null`/`""`) is
embedded on `Option String` by `jsFalsy`; the `x || d` defaulting idiom on
nullable strings is embedded by `jsOrStr`.
-/

/-- JS falsiness of a possibly-absent string: `!x` is true when `x` is
`undefined`/`null` (here `none`) or the empty string. -/
def jsFalsy : Option String → Bool
  | none => true
  | some s => s = ""

/-- The JS defaulting idiom `x || d` on a nullable string field:
`undefined`/`null`/`""` all fall back to the default. -/
def jsOrStr (x : Option String) (d : String) : String :=
  match x with
  | none => d
  | some s => if s = "" then d else s

/-- The JS coalescing idiom `x || 0` on a nullable numeric field
(`siteData.funds || 0`): `undefined`/`null` become `0`; a stored `0`
stays `0`, any other number passes through unchanged. -/
def jsOrZero (x : Option ℚ) : ℚ :=
  match x with
  | none => 0
  | some v => if v = 0 then 0 else v

/-! ## Advance purposes

The `AdvancePurpose` enumeration is declared in `src/lib/types`, which is
not part of the corpus; its members `ADVANCE`, `SAFETY_SHOES`, `TOOLS`,
`OTHER` are named by the spec (§3) and by the Expenses component's
`DEBIT_ADVANCE_PURPOSES` constant. At runtime a purpose is a string cast
from the database (`advance.purpose as AdvancePurpose`), so unknown/future
values are possible; the purpose field is therefore embedded as `String`,
with the four known members as distinct string constants (only equality
between members is ever consulted, so the concrete spellings are
immaterial). -/

/-- Modelled from the spec: member `ADVANCE` of the `AdvancePurpose`
enumeration (src/lib/types is not in the corpus). -/
def AdvancePurpose.ADVANCE : String := "advance"

/-- Modelled from the spec: member `SAFETY_SHOES` of the `AdvancePurpose`
enumeration. -/
def AdvancePurpose.SAFETY_SHOES : String := "safety_shoes"

/-- Modelled from the spec: member `TOOLS` of the `AdvancePurpose`
enumeration. -/
def AdvancePurpose.TOOLS : String := "tools"

/-- Modelled from the spec: member `OTHER` of the `AdvancePurpose`
enumeration. -/
def AdvancePurpose.OTHER : String := "other"

/-- Constant `DEBIT_ADVANCE_PURPOSES` — the explicit allow-list of debit-type
purposes (checkRole.ts, Expenses component, lines 55–59). -/
def DEBIT_ADVANCE_PURPOSES : List String :=
  [AdvancePurpose.SAFETY_SHOES, AdvancePurpose.TOOLS, AdvancePurpose.OTHER]

/-! ## Data model (fields consumed by the balance engine) -/

/-- A construction site. `calculateSiteFinancials` consults only `id`
(`sites.find(s => s.id === siteId)`); the remaining `Site` fields
(name, jobName, dates, …) are never read by the engine and are omitted. -/
structure Site where
  id : String
deriving Repr, DecidableEq

/-- An expense record: the engine reads only `amount`; `siteId` is carried
because every record belongs to one site (the collections handed to the
engine are already scoped per-site by the fetchers). -/
structure Expense where
  siteId : String
  amount : ℚ
deriving Repr, DecidableEq

/-- A cash-advance record: the engine reads `purpose` and `amount`. -/
structure Advance where
  siteId : String
  amount : ℚ
  purpose : String
deriving Repr, DecidableEq

/-- A funds-received record: the engine reads only `amount`. -/
structure FundsReceived where
  siteId : String
  amount : ℚ
deriving Repr, DecidableEq

/-- An invoice record: the engine filters on `payment_by` (the exact field
name the source reads: `invoice.payment_by === 'supervisor'`) and sums
`netAmount`. -/
structure Invoice where
  siteId : String
  netAmount : ℚ
  payment_by : String
deriving Repr, DecidableEq

/-- The summary record returned by the balance engine. -/
structure Summary where
  fundsReceived : ℚ
  totalExpenditure : ℚ
  totalAdvances : ℚ
  debitsToWorker : ℚ
  invoicesPaid : ℚ
  pendingInvoices : ℚ
  totalBalance : ℚ
deriving Repr, DecidableEq

/-- The all-zero fallback summary returned when the site is not found. -/
def zeroSummary : Summary :=
  { fundsReceived := 0, totalExpenditure := 0, totalAdvances := 0,
    debitsToWorker := 0, invoicesPaid := 0, pendingInvoices := 0,
    totalBalance := 0 }

/-- The balance engine `calculateSiteFinancials` (checkRole.ts, Expenses component, lines
623–679). The source closes over the component state `sites`, `expenses`,
`advances`, `fundsReceived`, `invoices`; here they are explicit arguments.
`if (siteId)` is the JS truthiness test on a string, i.e. `siteId ≠ ""`.
The engine does not itself filter the record collections by site — they
are whatever is in state (the fetchers populate them per selected site). -/
def calculateSiteFinancials (sites : List Site) (expenses : List Expense)
    (advances : List Advance) (fundsReceived : List FundsReceived)
    (invoices : List Invoice) (siteId : String) : Summary :=
  if siteId ≠ "" then
    match sites.find? (fun s => s.id = siteId) with
    | some _ =>
      let totalExpenses := expenses.foldl (fun sum expense => sum + expense.amount) 0
      let totalFunds := fundsReceived.foldl (fun sum fund => sum + fund.amount) 0
      let totalAdvances := advances.foldl (fun sum advance =>
        if advance.purpose ∉ DEBIT_ADVANCE_PURPOSES then sum + advance.amount
        else sum) 0
      let totalDebitToWorker := advances.foldl (fun sum advance =>
        if advance.purpose ∈ DEBIT_ADVANCE_PURPOSES then sum + advance.amount
        else sum) 0
      let supervisorInvoiceTotal :=
        (invoices.filter (fun invoice => invoice.payment_by = "supervisor")).foldl
          (fun sum invoice => sum + invoice.netAmount) 0
      let totalBalance := totalFunds - totalExpenses - totalAdvances - supervisorInvoiceTotal
      { fundsReceived := totalFunds,
        totalExpenditure := totalExpenses,
        totalAdvances := totalAdvances,
        debitsToWorker := totalDebitToWorker,
        invoicesPaid := supervisorInvoiceTotal,
        pendingInvoices := 0,
        totalBalance := totalBalance }
    | none => zeroSummary
  else zeroSummary

/-! ## Role-gate middleware (src/src/lib/middleware/checkRole.ts) -/

/-- What the middleware does with a request: either it sends a response
(status code plus error body) without calling `next`, or it calls `next`
and sends nothing. -/
inductive MiddlewareOutcome where
  | respond (status : Nat) (error : String)
  | callNext
deriving Repr, DecidableEq

/-- The middleware `checkRole(allowedRoles)` applied to a request whose authenticated
user (if any) carries the given role. `req.user` absent → 401; role not
in the allow-list → 403; otherwise `next()` is called. -/
def checkRole (allowedRoles : List String) (user : Option String) :
    MiddlewareOutcome :=
  match user with
  | none => .respond 401 "Unauthorized"
  | some role =>
    if role ∉ allowedRoles then .respond 403 "Forbidden"
    else .callNext

/-! ## Invoice view-model mapping (src/src/pages/Invoices.tsx, mapInvoices)

A raw backend row of `site_invoices`, with the columns `mapInvoices`
reads. Numeric columns may arrive as strings and pass through `Number(…)`;
they are embedded directly as the numeric value carried. The `date` /
`created_at` columns (wrapped in `new Date`) and the JSON-text columns
`material_items` / `bank_details` (parsed with `JSON.parse`) are outside
the claims and are omitted from the embedding. -/

structure InvoiceRow where
  id : String
  party_id : String
  party_name : String
  material : String
  quantity : ℚ
  rate : ℚ
  gst_percentage : ℚ
  gross_amount : ℚ
  net_amount : ℚ
  bill_url : Option String
  invoice_image_url : Option String
  payment_status : String
  created_by : Option String
  approver_type : Option String
  site_id : String
deriving Repr, DecidableEq

/-- The camel-case view model produced by `mapInvoices` (the fields built
from the embedded columns). -/
structure MappedInvoice where
  id : String
  partyId : String
  partyName : String
  material : String
  quantity : ℚ
  rate : ℚ
  gstPercentage : ℚ
  grossAmount : ℚ
  netAmount : ℚ
  billUrl : String
  invoiceImageUrl : String
  paymentStatus : String
  createdBy : String
  approverType : String
  siteId : String
  status : String
  vendorName : String
  invoiceNumber : String
  amount : ℚ
deriving Repr, DecidableEq

/-- The per-row body of `mapInvoices` (Invoices.tsx lines 96–122):
`approverType` is `(invoice.approver_type || 'ho')`, the other nullable
string columns default to `''` by the same `||` idiom. -/
def mapInvoice (invoice : InvoiceRow) : MappedInvoice :=
  { id := invoice.id,
    partyId := invoice.party_id,
    partyName := invoice.party_name,
    material := invoice.material,
    quantity := invoice.quantity,
    rate := invoice.rate,
    gstPercentage := invoice.gst_percentage,
    grossAmount := invoice.gross_amount,
    netAmount := invoice.net_amount,
    billUrl := jsOrStr invoice.bill_url "",
    invoiceImageUrl := jsOrStr invoice.invoice_image_url "",
    paymentStatus := invoice.payment_status,
    createdBy := jsOrStr invoice.created_by "",
    approverType := jsOrStr invoice.approver_type "ho",
    siteId := invoice.site_id,
    status := invoice.payment_status,
    vendorName := invoice.party_name,
    invoiceNumber := invoice.id,
    amount := invoice.net_amount }

/-- The mapper `mapInvoices` maps the per-row body over the fetched rows. -/
def mapInvoices (data : List InvoiceRow) : List MappedInvoice :=
  data.map mapInvoice

/-! ## increment_funds serverless handler
(src/supabase/functions/increment_funds/index.ts)

The handler is embedded as a function of the request (method and the two
parsed body fields) and of the outcomes of its two backend calls: the read
of the site's `funds` column (which may fail, or succeed with a possibly
null stored value) and the write of the new value (which may fail, or
succeed returning the updated rows). The body field `site_id` is a
possibly-absent string (`!site_id` is the JS falsiness test); `amount` is
a possibly-absent number, tested with the strict `amount === undefined`. -/

/-- The JSON body of a response from the handler: `null` (the OPTIONS
preflight), an `{ error }` object, or the success object
`{ success: true, data, previous_funds, new_funds }`. -/
inductive FundsBody where
  | nullBody
  | errorBody (error : String)
  | successBody (data : List String) (previous_funds new_funds : ℚ)
deriving Repr, DecidableEq

/-- An HTTP response from the handler: status code and JSON body. -/
structure FundsResponse where
  status : Nat
  body : FundsBody
deriving Repr, DecidableEq

/-- The `serve` handler of increment_funds (index.ts lines 10–96).
`readFunds` is the outcome of the `.select('funds').single()` call
(`Except.error msg` when `siteError` is set, otherwise the stored
`siteData.funds`, `none` when the column is null); `writeFunds` is the
outcome of the `.update({ funds: newFunds })` call, returning the
updated-row data on success. -/
def incrementFundsHandler (method : String) (site_id : Option String)
    (amount : Option ℚ) (readFunds : Except String (Option ℚ))
    (writeFunds : Except String (List String)) : FundsResponse :=
  if method = "OPTIONS" then
    { status := 200, body := .nullBody }
  else if jsFalsy site_id ∨ amount = none then
    { status := 400, body := .errorBody "Site ID and amount are required" }
  else
    match readFunds with
    | .error msg =>
      { status := 500, body := .errorBody ("Error fetching site: " ++ msg) }
    | .ok funds =>
      let currentFunds := jsOrZero funds
      let newFunds := currentFunds + amount.getD 0
      match writeFunds with
      | .error msg =>
        { status := 500,
          body := .errorBody ("Error updating site funds: " ++ msg) }
      | .ok data =>
        { status := 200, body := .successBody data currentFunds newFunds }

/-! ## Helper lemmas about the accumulating folds -/

/-- A `reduce((sum, x) => sum + f x, init)` equals `init` plus the sum of
`f` over the list. -/
theorem foldl_add_eq_sum {α : Type} (f : α → ℚ) :
    ∀ (l : List α) (init : ℚ),
      l.foldl (fun sum a => sum + f a) init = init + (l.map f).sum := by
  intro l
  induction l with
  | nil => intro init; simp
  | cons x xs ih =>
    intro init
    simp only [List.foldl_cons, List.map_cons, List.sum_cons, ih]
    ring

/-- A conditional `reduce` that adds `f x` exactly when `p x` holds equals
`init` plus the sum of `f` over the sublist selected by `p`. -/
theorem foldl_cond_eq_sum {α : Type} (p : α → Prop) [DecidablePred p]
    (f : α → ℚ) :
    ∀ (l : List α) (init : ℚ),
      l.foldl (fun sum a => if p a then sum + f a else sum) init
        = init + ((l.filter fun a => p a).map f).sum := by
  intro l
  induction l with
  | nil => intro init; simp
  | cons x xs ih =>
    intro init
    by_cases hx : p x
    · rw [List.foldl_cons, if_pos hx, ih,
        List.filter_cons_of_pos (by simpa using hx), List.map_cons,
        List.sum_cons]
      ring
    · rw [List.foldl_cons, if_neg hx, ih,
        List.filter_cons_of_neg (by simpa using hx)]

/-- Splitting a sum over a list by a decidable predicate: the selected and
the rejected parts together sum to the whole. -/
theorem sum_filter_add_sum_filter_not {α : Type} (p : α → Prop)
    [DecidablePred p] (f : α → ℚ) :
    ∀ l : List α,
      ((l.filter fun a => p a).map f).sum
          + ((l.filter fun a => ¬ p a).map f).sum
        = (l.map f).sum := by
  intro l
  induction l with
  | nil => simp
  | cons x xs ih =>
    by_cases hx : p x
    · rw [List.filter_cons_of_pos (by simpa using hx),
        List.filter_cons_of_neg (by simpa using hx), List.map_cons,
        List.sum_cons, List.map_cons, List.sum_cons, ← ih]
      ring
    · rw [List.filter_cons_of_neg (by simpa using hx),
        List.filter_cons_of_pos (by simpa using hx), List.map_cons,
        List.sum_cons, List.map_cons, List.sum_cons, ← ih]
      ring

/-- When the target site is present (`siteId` truthy and found in the
site list), each summary field of `calculateSiteFinancials` in closed
map-sum form. -/
theorem calculateSiteFinancials_found (sites : List Site)
    (expenses : List Expense) (advances : List Advance)
    (fundsReceived : List FundsReceived) (invoices : List Invoice)
    (siteId : String) (hne : siteId ≠ "")
    (hfound : (sites.find? fun s => s.id = siteId).isSome) :
    calculateSiteFinancials sites expenses advances fundsReceived invoices
        siteId =
      { fundsReceived := (fundsReceived.map (fun f => f.amount)).sum,
        totalExpenditure := (expenses.map (fun e => e.amount)).sum,
        totalAdvances :=
          ((advances.filter fun a => a.purpose ∉ DEBIT_ADVANCE_PURPOSES).map
            (fun a => a.amount)).sum,
        debitsToWorker :=
          ((advances.filter fun a => a.purpose ∈ DEBIT_ADVANCE_PURPOSES).map
            (fun a => a.amount)).sum,
        invoicesPaid :=
          ((invoices.filter fun i => i.payment_by = "supervisor").map
            (fun i => i.netAmount)).sum,
        pendingInvoices := 0,
        totalBalance :=
          (fundsReceived.map (fun f => f.amount)).sum
            - (expenses.map (fun e => e.amount)).sum
            - ((advances.filter fun a =>
                a.purpose ∉ DEBIT_ADVANCE_PURPOSES).map
                (fun a => a.amount)).sum
            - ((invoices.filter fun i => i.payment_by = "supervisor").map
                (fun i => i.netAmount)).sum } := by
  obtain ⟨s, hs⟩ := Option.isSome_iff_exists.mp hfound
  simp only [calculateSiteFinancials, hne, if_pos, ne_eq,
    not_false_iff, hs]
  simp only [foldl_add_eq_sum, foldl_cond_eq_sum, zero_add]

/-- When `siteId` is empty or no site in the list carries it, the engine
falls through to the all-zero summary. -/
theorem calculateSiteFinancials_not_found (sites : List Site)
    (expenses : List Expense) (advances : List Advance)
    (fundsReceived : List FundsReceived) (invoices : List Invoice)
    (siteId : String) (h : siteId = "" ∨ ∀ s ∈ sites, s.id ≠ siteId) :
    calculateSiteFinancials sites expenses advances fundsReceived invoices
        siteId = zeroSummary := by
  rcases h with h | h
  · simp [calculateSiteFinancials, h]
  · have hfind : sites.find? (fun s => s.id = siteId) = none := by
      rw [List.find?_eq_none]
      intro s hs
      simpa using h s hs
    simp [calculateSiteFinancials, hfind]

/-! ## Claims about the balance engine -/

/-- C1: whenever the target site is found in the site list, the summary
returned by `calculateSiteFinancials` satisfies
`totalBalance = fundsReceived - totalExpenditure - totalAdvances -
invoicesPaid` exactly; `debitsToWorker` is not subtracted in this
difference. -/
theorem C1_totalBalance_identity (sites : List Site)
    (expenses : List Expense) (advances : List Advance)
    (fundsReceived : List FundsReceived) (invoices : List Invoice)
    (siteId : String) (hne : siteId ≠ "")
    (hfound : (sites.find? fun s => s.id = siteId).isSome) :
    (calculateSiteFinancials sites expenses advances fundsReceived invoices
        siteId).totalBalance
      = (calculateSiteFinancials sites expenses advances fundsReceived
          invoices siteId).fundsReceived
        - (calculateSiteFinancials sites expenses advances fundsReceived
            invoices siteId).totalExpenditure
        - (calculateSiteFinancials sites expenses advances fundsReceived
            invoices siteId).totalAdvances
        - (calculateSiteFinancials sites expenses advances fundsReceived
            invoices siteId).invoicesPaid := by
  rw [calculateSiteFinancials_found sites expenses advances fundsReceived
    invoices siteId hne hfound]

/-- Witness for C1 at a concrete input with the site present. -/
theorem C1_totalBalance_identity_witness :
    ("site-1" ≠ "")
    ∧ (([Site.mk "site-1"].find? fun s => s.id = "site-1").isSome)
    ∧ (calculateSiteFinancials [⟨"site-1"⟩] [⟨"site-1", 2000⟩]
        [⟨"site-1", 1000, AdvancePurpose.ADVANCE⟩] [⟨"site-1", 10000⟩]
        [⟨"site-1", 1500, "supervisor"⟩] "site-1").totalBalance
      = (calculateSiteFinancials [⟨"site-1"⟩] [⟨"site-1", 2000⟩]
          [⟨"site-1", 1000, AdvancePurpose.ADVANCE⟩] [⟨"site-1", 10000⟩]
          [⟨"site-1", 1500, "supervisor"⟩] "site-1").fundsReceived
        - (calculateSiteFinancials [⟨"site-1"⟩] [⟨"site-1", 2000⟩]
            [⟨"site-1", 1000, AdvancePurpose.ADVANCE⟩] [⟨"site-1", 10000⟩]
            [⟨"site-1", 1500, "supervisor"⟩] "site-1").totalExpenditure
        - (calculateSiteFinancials [⟨"site-1"⟩] [⟨"site-1", 2000⟩]
            [⟨"site-1", 1000, AdvancePurpose.ADVANCE⟩] [⟨"site-1", 10000⟩]
            [⟨"site-1", 1500, "supervisor"⟩] "site-1").totalAdvances
        - (calculateSiteFinancials [⟨"site-1"⟩] [⟨"site-1", 2000⟩]
            [⟨"site-1", 1000, AdvancePurpose.ADVANCE⟩] [⟨"site-1", 10000⟩]
            [⟨"site-1", 1500, "supervisor"⟩] "site-1").invoicesPaid :=
  ⟨by decide, by decide,
    C1_totalBalance_identity [⟨"site-1"⟩] [⟨"site-1", 2000⟩]
      [⟨"site-1", 1000, AdvancePurpose.ADVANCE⟩] [⟨"site-1", 10000⟩]
      [⟨"site-1", 1500, "supervisor"⟩] "site-1" (by decide) (by decide)⟩

/-- C2: with the target site found, `invoicesPaid` is the sum of
`netAmount` over exactly the invoices whose `payment_by` field is
`"supervisor"`, and prepending an invoice paid by head office (`"ho"`)
changes neither `invoicesPaid` nor `totalBalance`. -/
theorem C2_invoicesPaid_supervisor_only (sites : List Site)
    (expenses : List Expense) (advances : List Advance)
    (fundsReceived : List FundsReceived) (invoices : List Invoice)
    (siteId : String) (hne : siteId ≠ "")
    (hfound : (sites.find? fun s => s.id = siteId).isSome) :
    (calculateSiteFinancials sites expenses advances fundsReceived invoices
        siteId).invoicesPaid
      = ((invoices.filter fun i => i.payment_by = "supervisor").map
          (fun i => i.netAmount)).sum
    ∧ ∀ inv : Invoice, inv.payment_by = "ho" →
        (calculateSiteFinancials sites expenses advances fundsReceived
            (inv :: invoices) siteId).invoicesPaid
          = (calculateSiteFinancials sites expenses advances fundsReceived
              invoices siteId).invoicesPaid
        ∧ (calculateSiteFinancials sites expenses advances fundsReceived
            (inv :: invoices) siteId).totalBalance
          = (calculateSiteFinancials sites expenses advances fundsReceived
              invoices siteId).totalBalance := by
  constructor
  · rw [calculateSiteFinancials_found sites expenses advances fundsReceived
      invoices siteId hne hfound]
  · intro inv hinv
    rw [calculateSiteFinancials_found sites expenses advances fundsReceived
      (inv :: invoices) siteId hne hfound,
      calculateSiteFinancials_found sites expenses advances fundsReceived
      invoices siteId hne hfound]
    have hfil :
        (inv :: invoices).filter (fun i => i.payment_by = "supervisor")
          = invoices.filter (fun i => i.payment_by = "supervisor") :=
      List.filter_cons_of_neg (by simp [hinv])
    rw [hfil]
    exact ⟨rfl, rfl⟩

/-- Witness for C2 at a concrete input with the site present and a
prepended head-office invoice. -/
theorem C2_invoicesPaid_supervisor_only_witness :
    ("site-1" ≠ "")
    ∧ (([Site.mk "site-1"].find? fun s => s.id = "site-1").isSome)
    ∧ (calculateSiteFinancials [⟨"site-1"⟩] [] []
        [] [⟨"site-1", 1500, "supervisor"⟩, ⟨"site-1", 900, "ho"⟩]
        "site-1").invoicesPaid
      = ((([⟨"site-1", 1500, "supervisor"⟩, ⟨"site-1", 900, "ho"⟩] :
          List Invoice).filter fun i => i.payment_by = "supervisor").map
          (fun i => i.netAmount)).sum
    ∧ ((calculateSiteFinancials [⟨"site-1"⟩] [] [] []
          (⟨"site-1", 700, "ho"⟩ ::
            [⟨"site-1", 1500, "supervisor"⟩, ⟨"site-1", 900, "ho"⟩])
          "site-1").invoicesPaid
        = (calculateSiteFinancials [⟨"site-1"⟩] [] [] []
            [⟨"site-1", 1500, "supervisor"⟩, ⟨"site-1", 900, "ho"⟩]
            "site-1").invoicesPaid
      ∧ (calculateSiteFinancials [⟨"site-1"⟩] [] [] []
          (⟨"site-1", 700, "ho"⟩ ::
            [⟨"site-1", 1500, "supervisor"⟩, ⟨"site-1", 900, "ho"⟩])
          "site-1").totalBalance
        = (calculateSiteFinancials [⟨"site-1"⟩] [] [] []
            [⟨"site-1", 1500, "supervisor"⟩, ⟨"site-1", 900, "ho"⟩]
            "site-1").totalBalance) :=
  ⟨by decide, by decide,
    (C2_invoicesPaid_supervisor_only [⟨"site-1"⟩] [] [] []
      [⟨"site-1", 1500, "supervisor"⟩, ⟨"site-1", 900, "ho"⟩] "site-1"
      (by decide) (by decide)).1,
    (C2_invoicesPaid_supervisor_only [⟨"site-1"⟩] [] [] []
      [⟨"site-1", 1500, "supervisor"⟩, ⟨"site-1", 900, "ho"⟩] "site-1"
      (by decide) (by decide)).2 ⟨"site-1", 700, "ho"⟩ rfl⟩

/-- C3: with the target site found, `totalAdvances + debitsToWorker`
equals the sum of `amount` over all advances: the debit allow-list
membership test partitions the advances into the two buckets with no
overlap and no omission. -/
theorem C3_advances_partition (sites : List Site) (expenses : List Expense)
    (advances : List Advance) (fundsReceived : List FundsReceived)
    (invoices : List Invoice) (siteId : String) (hne : siteId ≠ "")
    (hfound : (sites.find? fun s => s.id = siteId).isSome) :
    (calculateSiteFinancials sites expenses advances fundsReceived invoices
        siteId).totalAdvances
      + (calculateSiteFinancials sites expenses advances fundsReceived
          invoices siteId).debitsToWorker
      = (advances.map fun a => a.amount).sum := by
  rw [calculateSiteFinancials_found sites expenses advances fundsReceived
    invoices siteId hne hfound]
  rw [add_comm]
  exact sum_filter_add_sum_filter_not
    (fun a => a.purpose ∈ DEBIT_ADVANCE_PURPOSES) (fun a => a.amount)
    advances

/-- Witness for C3 at a concrete input with advances in both buckets. -/
theorem C3_advances_partition_witness :
    ("site-1" ≠ "")
    ∧ (([Site.mk "site-1"].find? fun s => s.id = "site-1").isSome)
    ∧ (calculateSiteFinancials [⟨"site-1"⟩] []
        [⟨"site-1", 1000, AdvancePurpose.ADVANCE⟩,
         ⟨"site-1", 300, AdvancePurpose.TOOLS⟩,
         ⟨"site-1", 40, AdvancePurpose.SAFETY_SHOES⟩] [] []
        "site-1").totalAdvances
      + (calculateSiteFinancials [⟨"site-1"⟩] []
          [⟨"site-1", 1000, AdvancePurpose.ADVANCE⟩,
           ⟨"site-1", 300, AdvancePurpose.TOOLS⟩,
           ⟨"site-1", 40, AdvancePurpose.SAFETY_SHOES⟩] [] []
          "site-1").debitsToWorker
      = (([⟨"site-1", 1000, AdvancePurpose.ADVANCE⟩,
          ⟨"site-1", 300, AdvancePurpose.TOOLS⟩,
          ⟨"site-1", 40, AdvancePurpose.SAFETY_SHOES⟩] :
          List Advance).map fun a => a.amount).sum :=
  ⟨by decide, by decide,
    C3_advances_partition [⟨"site-1"⟩] []
      [⟨"site-1", 1000, AdvancePurpose.ADVANCE⟩,
       ⟨"site-1", 300, AdvancePurpose.TOOLS⟩,
       ⟨"site-1", 40, AdvancePurpose.SAFETY_SHOES⟩] [] [] "site-1"
      (by decide) (by decide)⟩

/-- C4: the spec's concrete scenario — fundsReceived `[10000]`, expenses
`[2000, 500]`, advances `[1000 ADVANCE, 300 TOOLS]`, invoices `[1500 paid
by supervisor]`, target site present — yields the summary
`⟨10000, 2500, 1000, 300, 1500, 0, 5000⟩`. -/
theorem C4_scenario :
    calculateSiteFinancials [⟨"site-1"⟩]
      [⟨"site-1", 2000⟩, ⟨"site-1", 500⟩]
      [⟨"site-1", 1000, AdvancePurpose.ADVANCE⟩,
       ⟨"site-1", 300, AdvancePurpose.TOOLS⟩]
      [⟨"site-1", 10000⟩]
      [⟨"site-1", 1500, "supervisor"⟩]
      "site-1" =
    { fundsReceived := 10000, totalExpenditure := 2500,
      totalAdvances := 1000, debitsToWorker := 300, invoicesPaid := 1500,
      pendingInvoices := 0, totalBalance := 5000 } := by
  rw [calculateSiteFinancials_found _ _ _ _ _ _ (by decide) (by decide)]
  simp [DEBIT_ADVANCE_PURPOSES, AdvancePurpose.ADVANCE,
    AdvancePurpose.SAFETY_SHOES, AdvancePurpose.TOOLS,
    AdvancePurpose.OTHER, List.filter_cons, List.filter_nil]
  norm_num

/-- C5: for a `siteId` that is empty or not present in the site list, the
engine returns the all-zero summary (and, being a total function, raises
no exception), whatever the record collections contain. -/
theorem C5_unknown_site_zero (sites : List Site) (expenses : List Expense)
    (advances : List Advance) (fundsReceived : List FundsReceived)
    (invoices : List Invoice) (siteId : String)
    (h : siteId = "" ∨ ∀ s ∈ sites, s.id ≠ siteId) :
    calculateSiteFinancials sites expenses advances fundsReceived invoices
        siteId = zeroSummary :=
  calculateSiteFinancials_not_found sites expenses advances fundsReceived
    invoices siteId h

/-- Witness for C5: an unknown site id over non-empty collections. -/
theorem C5_unknown_site_zero_witness :
    (("no-such-site" : String) = "" ∨
      ∀ s ∈ [Site.mk "site-1"], s.id ≠ "no-such-site")
    ∧ calculateSiteFinancials [⟨"site-1"⟩] [⟨"site-1", 2000⟩]
        [⟨"site-1", 1000, AdvancePurpose.ADVANCE⟩] [⟨"site-1", 10000⟩]
        [⟨"site-1", 1500, "supervisor"⟩] "no-such-site" = zeroSummary :=
  ⟨by decide,
    C5_unknown_site_zero [⟨"site-1"⟩] [⟨"site-1", 2000⟩]
      [⟨"site-1", 1000, AdvancePurpose.ADVANCE⟩] [⟨"site-1", 10000⟩]
      [⟨"site-1", 1500, "supervisor"⟩] "no-such-site" (by decide)⟩

/-- C6: an advance whose purpose is not in the debit allow-list
`DEBIT_ADVANCE_PURPOSES` — including any unknown/future purpose — is
counted in `totalAdvances` and contributes nothing to `debitsToWorker`. -/
theorem C6_unknown_purpose_non_debit (sites : List Site)
    (expenses : List Expense) (advances : List Advance)
    (fundsReceived : List FundsReceived) (invoices : List Invoice)
    (siteId : String) (adv : Advance)
    (hp : adv.purpose ∉ DEBIT_ADVANCE_PURPOSES) (hne : siteId ≠ "")
    (hfound : (sites.find? fun s => s.id = siteId).isSome) :
    (calculateSiteFinancials sites expenses (adv :: advances) fundsReceived
        invoices siteId).totalAdvances
      = adv.amount
        + (calculateSiteFinancials sites expenses advances fundsReceived
            invoices siteId).totalAdvances
    ∧ (calculateSiteFinancials sites expenses (adv :: advances)
        fundsReceived invoices siteId).debitsToWorker
      = (calculateSiteFinancials sites expenses advances fundsReceived
          invoices siteId).debitsToWorker := by
  rw [calculateSiteFinancials_found sites expenses (adv :: advances)
    fundsReceived invoices siteId hne hfound,
    calculateSiteFinancials_found sites expenses advances fundsReceived
    invoices siteId hne hfound]
  constructor
  · rw [List.filter_cons_of_pos (by simpa using hp), List.map_cons,
      List.sum_cons]
  · have hfil :
        (adv :: advances).filter
            (fun a => a.purpose ∈ DEBIT_ADVANCE_PURPOSES)
          = advances.filter (fun a => a.purpose ∈ DEBIT_ADVANCE_PURPOSES) :=
      List.filter_cons_of_neg (by simpa using hp)
    rw [hfil]

/-- Witness for C6 with the unknown purpose string `"fuel"`, outside the
current enumeration. -/
theorem C6_unknown_purpose_non_debit_witness :
    ((Advance.mk "site-1" 50 "fuel").purpose ∉ DEBIT_ADVANCE_PURPOSES)
    ∧ ("site-1" ≠ "")
    ∧ (([Site.mk "site-1"].find? fun s => s.id = "site-1").isSome)
    ∧ ((calculateSiteFinancials [⟨"site-1"⟩] []
          (⟨"site-1", 50, "fuel"⟩ :: [⟨"site-1", 300, AdvancePurpose.TOOLS⟩])
          [] [] "site-1").totalAdvances
        = (Advance.mk "site-1" 50 "fuel").amount
          + (calculateSiteFinancials [⟨"site-1"⟩] []
              [⟨"site-1", 300, AdvancePurpose.TOOLS⟩] [] []
              "site-1").totalAdvances
      ∧ (calculateSiteFinancials [⟨"site-1"⟩] []
          (⟨"site-1", 50, "fuel"⟩ :: [⟨"site-1", 300, AdvancePurpose.TOOLS⟩])
          [] [] "site-1").debitsToWorker
        = (calculateSiteFinancials [⟨"site-1"⟩] []
            [⟨"site-1", 300, AdvancePurpose.TOOLS⟩] [] []
            "site-1").debitsToWorker) :=
  ⟨by decide, by decide, by decide,
    C6_unknown_purpose_non_debit [⟨"site-1"⟩] []
      [⟨"site-1", 300, AdvancePurpose.TOOLS⟩] [] [] "site-1"
      ⟨"site-1", 50, "fuel"⟩ (by decide) (by decide) (by decide)⟩

/-! ## Claims about the middleware, the mapping and the endpoint -/

/-- C7: for every non-OPTIONS request to increment_funds — missing
`site_id`/`amount` gives a 400 error response; a failed backend read or
write gives a 500 error response; otherwise the handler returns 200 with
`success = true`, `previous_funds` equal to the stored funds value and
`new_funds = previous_funds + amount`. -/
theorem C7_increment_funds_statuses (method : String)
    (site_id : Option String) (amount : Option ℚ)
    (readFunds : Except String (Option ℚ))
    (writeFunds : Except String (List String)) (hm : method ≠ "OPTIONS") :
    ((jsFalsy site_id ∨ amount = none) →
      incrementFundsHandler method site_id amount readFunds writeFunds
        = { status := 400,
            body := .errorBody "Site ID and amount are required" })
    ∧ (¬ (jsFalsy site_id ∨ amount = none) →
      (∀ msg, readFunds = .error msg →
        incrementFundsHandler method site_id amount readFunds writeFunds
          = { status := 500,
              body := .errorBody ("Error fetching site: " ++ msg) })
      ∧ (∀ funds msg, readFunds = .ok funds → writeFunds = .error msg →
        incrementFundsHandler method site_id amount readFunds writeFunds
          = { status := 500,
              body := .errorBody ("Error updating site funds: " ++ msg) })
      ∧ (∀ v a data, readFunds = .ok (some v) → amount = some a →
          writeFunds = .ok data →
        incrementFundsHandler method site_id amount readFunds writeFunds
          = { status := 200, body := .successBody data v (v + a) })) := by
  constructor
  · intro h
    simp [incrementFundsHandler, hm, h]
  · intro h
    refine ⟨?_, ?_, ?_⟩
    · intro msg hr
      simp [incrementFundsHandler, hm, h, hr]
    · intro funds msg hr hw
      simp [incrementFundsHandler, hm, h, hr, hw]
    · intro v a data hr ha hw
      subst ha
      have hf : jsFalsy site_id = false := by
        simpa using (not_or.mp h).1
      by_cases hv : v = 0 <;>
        simp [incrementFundsHandler, hm, h, hf, hr, hw, jsOrZero, hv]

/-- Witness for C7: the four outcomes at concrete requests. -/
theorem C7_increment_funds_statuses_witness :
    incrementFundsHandler "POST" none (some 2) (.ok (some 7)) (.ok ["r"])
      = { status := 400,
          body := .errorBody "Site ID and amount are required" }
    ∧ incrementFundsHandler "POST" (some "site-1") (some 2)
        (.error "db down") (.ok ["r"])
      = { status := 500,
          body := .errorBody ("Error fetching site: " ++ "db down") }
    ∧ incrementFundsHandler "POST" (some "site-1") (some 2) (.ok (some 7))
        (.error "conflict")
      = { status := 500,
          body := .errorBody ("Error updating site funds: " ++ "conflict") }
    ∧ incrementFundsHandler "POST" (some "site-1") (some 2) (.ok (some 7))
        (.ok ["r"])
      = { status := 200, body := .successBody ["r"] 7 (7 + 2) } :=
  ⟨(C7_increment_funds_statuses "POST" none (some 2) (.ok (some 7))
      (.ok ["r"]) (by decide)).1 (Or.inl (by decide)),
   ((C7_increment_funds_statuses "POST" (some "site-1") (some 2)
      (.error "db down") (.ok ["r"]) (by decide)).2
      (by simp [jsFalsy])).1 "db down" rfl,
   ((C7_increment_funds_statuses "POST" (some "site-1") (some 2)
      (.ok (some 7)) (.error "conflict") (by decide)).2
      (by simp [jsFalsy])).2.1 (some 7) "conflict" rfl rfl,
   ((C7_increment_funds_statuses "POST" (some "site-1") (some 2)
      (.ok (some 7)) (.ok ["r"]) (by decide)).2
      (by simp [jsFalsy])).2.2 7 2 ["r"] rfl rfl rfl⟩

/-- C8: `checkRole` responds 401 without calling `next` when no user is
attached, 403 without calling `next` when the user's role is outside the
allow-list, and otherwise calls `next` without sending a response. -/
theorem C8_checkRole_gate (allowedRoles : List String)
    (user : Option String) :
    (user = none →
      checkRole allowedRoles user = .respond 401 "Unauthorized")
    ∧ (∀ role, user = some role → role ∉ allowedRoles →
      checkRole allowedRoles user = .respond 403 "Forbidden")
    ∧ (∀ role, user = some role → role ∈ allowedRoles →
      checkRole allowedRoles user = .callNext) := by
  refine ⟨?_, ?_, ?_⟩
  · intro h
    simp [checkRole, h]
  · intro role h hrole
    simp [checkRole, h, hrole]
  · intro role h hrole
    simp [checkRole, h, hrole]

/-- Witness for C8: the three outcomes at a concrete allow-list. -/
theorem C8_checkRole_gate_witness :
    checkRole ["admin", "supervisor"] none = .respond 401 "Unauthorized"
    ∧ checkRole ["admin", "supervisor"] (some "viewer")
        = .respond 403 "Forbidden"
    ∧ checkRole ["admin", "supervisor"] (some "admin") = .callNext :=
  ⟨(C8_checkRole_gate ["admin", "supervisor"] none).1 rfl,
   (C8_checkRole_gate ["admin", "supervisor"] (some "viewer")).2.1
     "viewer" rfl (by decide),
   (C8_checkRole_gate ["admin", "supervisor"] (some "admin")).2.2
     "admin" rfl (by decide)⟩

/-- C9: for every backend row mapped by `mapInvoices`, a row whose
`approver_type` column is null/absent is mapped to a record whose
`approverType` is `"ho"`. -/
theorem C9_mapInvoices_null_approver_ho (data : List InvoiceRow)
    (row : InvoiceRow) (hrow : row ∈ data)
    (h : row.approver_type = none) :
    mapInvoice row ∈ mapInvoices data
    ∧ (mapInvoice row).approverType = "ho" := by
  constructor
  · exact List.mem_map_of_mem mapInvoice hrow
  · simp [mapInvoice, jsOrStr, h]

/-- Witness for C9 at a concrete row with a null `approver_type`. -/
theorem C9_mapInvoices_null_approver_ho_witness :
    (InvoiceRow.mk "inv-1" "p-1" "Acme" "cement" 10 50 18 500 590 none
        none "pending" none none "site-1"
      ∈ [InvoiceRow.mk "inv-1" "p-1" "Acme" "cement" 10 50 18 500 590 none
          none "pending" none none "site-1"])
    ∧ ((InvoiceRow.mk "inv-1" "p-1" "Acme" "cement" 10 50 18 500 590 none
        none "pending" none none "site-1").approver_type = none)
    ∧ (mapInvoice
        (InvoiceRow.mk "inv-1" "p-1" "Acme" "cement" 10 50 18 500 590 none
          none "pending" none none "site-1")
      ∈ mapInvoices
        [InvoiceRow.mk "inv-1" "p-1" "Acme" "cement" 10 50 18 500 590 none
          none "pending" none none "site-1"]
    ∧ (mapInvoice
        (InvoiceRow.mk "inv-1" "p-1" "Acme" "cement" 10 50 18 500 590 none
          none "pending" none none "site-1")).approverType = "ho") :=
  ⟨List.mem_singleton_self _, rfl,
    C9_mapInvoices_null_approver_ho
      [InvoiceRow.mk "inv-1" "p-1" "Acme" "cement" 10 50 18 500 590 none
        none "pending" none none "site-1"]
      (InvoiceRow.mk "inv-1" "p-1" "Acme" "cement" 10 50 18 500 590 none
        none "pending" none none "site-1")
      (List.mem_singleton_self _) rfl⟩

/-- C10: a non-OPTIONS increment_funds request is rejected with 400
exactly when `site_id` is falsy or `amount` is strictly absent; an
`amount` of 0 or a negative amount passes validation, and a null stored
funds value is coalesced to 0, making `new_funds` equal to `amount`. -/
theorem C10_increment_funds_validation (method : String)
    (site_id : Option String) (amount : Option ℚ)
    (readFunds : Except String (Option ℚ))
    (writeFunds : Except String (List String)) (hm : method ≠ "OPTIONS") :
    ((incrementFundsHandler method site_id amount readFunds
        writeFunds).status = 400
      ↔ (jsFalsy site_id ∨ amount = none))
    ∧ (∀ a : ℚ, ∀ data, ¬ jsFalsy site_id → readFunds = .ok none →
        writeFunds = .ok data →
        incrementFundsHandler method site_id (some a) readFunds writeFunds
          = { status := 200, body := .successBody data 0 a }) := by
  constructor
  · constructor
    · intro hst
      by_contra h
      have hf : jsFalsy site_id = false := by
        simpa using (not_or.mp h).1
      have h2 : ¬ amount = none := (not_or.mp h).2
      cases readFunds with
      | error msg => simp [incrementFundsHandler, hm, h, hf, h2] at hst
      | ok funds =>
        cases writeFunds with
        | error msg => simp [incrementFundsHandler, hm, h, hf, h2] at hst
        | ok data => simp [incrementFundsHandler, hm, h, hf, h2] at hst
    · intro h
      simp [incrementFundsHandler, hm, h]
  · intro a data hfalsy hr hw
    have hf : jsFalsy site_id = false := by simpa using hfalsy
    simp [incrementFundsHandler, hm, hf, hr, hw, jsOrZero]

/-- Witness for C10: a missing `site_id` is rejected with 400 while a
negative amount over a null stored funds value succeeds with
`new_funds = amount`. -/
theorem C10_increment_funds_validation_witness :
    (incrementFundsHandler "POST" none (some 2) (.ok none)
        (.ok ["r"])).status = 400
    ∧ incrementFundsHandler "POST" (some "site-1") (some (-5)) (.ok none)
        (.ok ["r"])
      = { status := 200, body := .successBody ["r"] 0 (-5) } :=
  ⟨(C10_increment_funds_validation "POST" none (some 2) (.ok none)
      (.ok ["r"]) (by decide)).1.mpr (Or.inl (by decide)),
   (C10_increment_funds_validation "POST" (some "site-1") (some (-5))
      (.ok none) (.ok ["r"]) (by decide)).2 (-5) ["r"]
      (by simp [jsFalsy]) rfl rfl⟩
